import Mathlib

/-!
Shallow embedding of the offline operation queue of src/mobile/lib/offlineQueue.ts.

Modelling conventions:
* The single AsyncStorage entry under the key "@kofa_offline_queue" is modelled
  by `StorageEnv.stored : Option (List QueuedOperation)`; JSON serialisation is
  a faithful round trip and is modelled as the identity.  Storage faults are
  injected through the `readFails` / `writeFails` flags: `AsyncStorage.getItem`
  rejects iff `readFails`, `AsyncStorage.setItem` rejects iff `writeFails`.
* A `fetch` call is modelled by a function from the request it issues to a
  `FetchResult`.  Per the fetch API, the promise resolves with a `Response`
  carrying any HTTP status (2xx or not) and rejects only on a network error or
  timeout; `FetchResult.resolved status` models the former, `FetchResult.rejected`
  the latter.  The source never inspects the response object, only awaits it.
* The mutable fields `isOnline` and `syncInProgress` of the OfflineQueue class
  form `QState`.  The source keeps `syncInProgress = true` across every await
  inside a replay pass, so a reentrant `processQueue` call made while a pass is
  suspended observes `syncInProgress = true`; that situation is modelled by
  calling `processQueue` on a state whose flag is already `true`.
* The fire-and-forget `this.processQueue()` calls made by `enqueue` and by the
  NetInfo listener are modelled as separate events: `enqueue` returns after its
  own storage write, and `handleNetInfoEvent` reports how many `processQueue`
  invocations the listener initiates.
-/

/-- The storage key of the persisted queue (source line 8). -/
def QUEUE_KEY : String := "@kofa_offline_queue"

/-- The backend base URL used by `executeOperation` (source line 150). -/
def API_BASE : String := "https://kofa-dhko.onrender.com"

/-- The closed enumeration of operation kinds
(`QueuedOperation.type` in the source, line 12). -/
inductive OpType where
  | create_product
  | update_product
  | restock
  | create_order
  | log_expense
deriving DecidableEq, Repr

/-- The kind-specific payload.  The source types it `any`; the replay
dispatcher reads `payload.id` and `payload.quantity`, and otherwise passes the
payload through `JSON.stringify`, modelled as the opaque `json` field. -/
structure Payload where
  id : String
  quantity : Nat
  json : String
deriving DecidableEq, Repr

/-- A durable record of one pending remote mutation (source lines 10 to 16). -/
structure QueuedOperation where
  id : String
  type : OpType
  payload : Payload
  timestamp : Nat
  retries : Nat
deriving DecidableEq, Repr

/-- An HTTP request as issued by `executeOperation`. -/
structure Request where
  url : String
  method : String
  body : Option String
deriving DecidableEq, Repr

/-- Outcome of one `fetch` call: the promise resolves with a response carrying
some HTTP status, or rejects (network error or timeout). -/
inductive FetchResult where
  | resolved (status : Nat)
  | rejected
deriving DecidableEq, Repr

/-- The persistent storage entry together with injected fault flags. -/
structure StorageEnv where
  stored : Option (List QueuedOperation)
  readFails : Bool
  writeFails : Bool
deriving DecidableEq, Repr

/-- The mutable instance fields `isOnline` and `syncInProgress` of the
OfflineQueue class (source lines 19 to 20). -/
structure QState where
  isOnline : Bool
  syncInProgress : Bool
deriving DecidableEq, Repr

/-- `AsyncStorage.getItem QUEUE_KEY`: rejects iff `readFails`, otherwise
returns the stored entry (absent entry gives `none`). -/
def getItem (env : StorageEnv) : Except String (Option (List QueuedOperation)) :=
  if env.readFails then Except.error "storage read error" else Except.ok env.stored

/-- `AsyncStorage.setItem QUEUE_KEY (JSON.stringify q)`: rejects iff
`writeFails`, otherwise replaces the stored entry wholesale. -/
def setItem (env : StorageEnv) (q : List QueuedOperation) : Except String StorageEnv :=
  if env.writeFails then Except.error "storage write error"
  else Except.ok { env with stored := some q }

/-- `getQueue` (source lines 88 to 96): reads the entry, returning `[]` when the
entry is absent, and swallowing read errors by returning `[]`. -/
def getQueue (env : StorageEnv) : List QueuedOperation :=
  match getItem env with
  | Except.error _ => []
  | Except.ok none => []
  | Except.ok (some q) => q

/-- `getPendingCount` (source lines 101 to 104). -/
def getPendingCount (env : StorageEnv) : Nat :=
  (getQueue env).length

/-- `clearQueue` (source lines 187 to 189): removes the stored entry. -/
def clearQueue (env : StorageEnv) : StorageEnv :=
  { env with stored := none }

/-- The operation record built by `enqueue` (source lines 63 to 69): the id is
the current time joined to a random suffix, the timestamp is the current time
and `retries` starts at 0. -/
def mkOperation (now : Nat) (rand : String) (t : OpType) (p : Payload) : QueuedOperation :=
  { id := toString now ++ "_" ++ rand
    type := t
    payload := p
    timestamp := now
    retries := 0 }

/-- `enqueue` (source lines 62 to 83): builds the operation, appends it to the
queue read from storage and writes the queue back.  The `setItem` call is
awaited with no surrounding try/catch, so a storage write rejection propagates
to the caller; on success the new id is returned.  The fire-and-forget
`processQueue` trigger is modelled as a separate event. -/
def enqueue (now : Nat) (rand : String) (t : OpType) (p : Payload)
    (env : StorageEnv) : Except String (StorageEnv × String) :=
  let op := mkOperation now rand t p
  let queue := getQueue env
  match setItem env (queue ++ [op]) with
  | Except.error e => Except.error e
  | Except.ok env2 => Except.ok (env2, op.id)

/-- A sequence of `enqueue` calls, each described by its clock reading, random
suffix, kind and payload, run left to right with no intervening replay pass.
Returns the final storage and the list of returned ids in call order. -/
def enqueueAll : List (Nat × String × OpType × Payload) → StorageEnv →
    Except String (StorageEnv × List String)
  | [], env => Except.ok (env, [])
  | (now, rand, t, p) :: rest, env =>
    match enqueue now rand t p env with
    | Except.error e => Except.error e
    | Except.ok (env1, opId) =>
      match enqueueAll rest env1 with
      | Except.error e => Except.error e
      | Except.ok (env2, ids) => Except.ok (env2, opId :: ids)

/-- The operation built from one entry of an `enqueueAll` argument list. -/
def mkReqOp (r : Nat × String × OpType × Payload) : QueuedOperation :=
  mkOperation r.1 r.2.1 r.2.2.1 r.2.2.2

/-- `executeOperation` (source lines 149 to 182): dispatches on the operation
kind, awaits one `fetch` per known kind, and throws on the default branch.
The awaited fetch leaves the function normally whenever its promise resolves,
whatever the HTTP status, and throws exactly when the promise rejects; the
source never reads the response.  The declared kind `create_order` has no case
and falls to the default throw. -/
def executeOperation (fetch : Request → FetchResult) (op : QueuedOperation) :
    Except String Unit :=
  match op.type with
  | OpType.create_product =>
    match fetch { url := API_BASE ++ "/products", method := "POST",
                  body := some op.payload.json } with
    | FetchResult.resolved _ => Except.ok ()
    | FetchResult.rejected => Except.error "network request failed"
  | OpType.update_product =>
    match fetch { url := API_BASE ++ "/products/" ++ op.payload.id, method := "PUT",
                  body := some op.payload.json } with
    | FetchResult.resolved _ => Except.ok ()
    | FetchResult.rejected => Except.error "network request failed"
  | OpType.restock =>
    match fetch { url := API_BASE ++ "/products/" ++ op.payload.id
                         ++ "/restock?quantity=" ++ toString op.payload.quantity,
                  method := "POST", body := none } with
    | FetchResult.resolved _ => Except.ok ()
    | FetchResult.rejected => Except.error "network request failed"
  | OpType.log_expense =>
    match fetch { url := API_BASE ++ "/expenses/log", method := "POST",
                  body := some op.payload.json } with
    | FetchResult.resolved _ => Except.ok ()
    | FetchResult.rejected => Except.error "network request failed"
  | OpType.create_order =>
    Except.error "Unknown operation type: create_order"

/-- The single request a kind dispatches to, `none` for the kind with no
branch.  Companion of `executeOperation`, used to state that the dispatcher
looks only at whether the fetch promise resolves. -/
def requestOf (op : QueuedOperation) : Option Request :=
  match op.type with
  | OpType.create_product =>
    some { url := API_BASE ++ "/products", method := "POST", body := some op.payload.json }
  | OpType.update_product =>
    some { url := API_BASE ++ "/products/" ++ op.payload.id, method := "PUT",
           body := some op.payload.json }
  | OpType.restock =>
    some { url := API_BASE ++ "/products/" ++ op.payload.id
                  ++ "/restock?quantity=" ++ toString op.payload.quantity,
           method := "POST", body := none }
  | OpType.log_expense =>
    some { url := API_BASE ++ "/expenses/log", method := "POST",
           body := some op.payload.json }
  | OpType.create_order => none

/-- Whether an execution attempt leaves `executeOperation` normally. -/
def execOk (fetch : Request → FetchResult) (op : QueuedOperation) : Bool :=
  match executeOperation fetch op with
  | Except.ok _ => true
  | Except.error _ => false

/-- `operation.retries++` (source line 128). -/
def bumpRetries (op : QueuedOperation) : QueuedOperation :=
  { op with retries := op.retries + 1 }

/-- The outcome of the loop of one replay pass: the `remaining` list that is
written back, the two tallies, and (ghost instrumentation) the list of
operations on which an execution attempt was made, in attempt order. -/
structure PassAcc where
  remaining : List QueuedOperation
  success : Nat
  failed : Nat
  attempted : List QueuedOperation
deriving DecidableEq, Repr

/-- The `for (const operation of queue)` loop of `processQueue` (source lines
122 to 136): each operation is attempted; on success the success tally grows;
on a thrown error the retries field is incremented, the operation is retained
when the new count is below 3 and otherwise dropped with the failed tally
grown. -/
def processPass (fetch : Request → FetchResult) :
    List QueuedOperation → PassAcc
  | [] => { remaining := [], success := 0, failed := 0, attempted := [] }
  | op :: rest =>
    let tail := processPass fetch rest
    match executeOperation fetch op with
    | Except.ok _ =>
      { remaining := tail.remaining, success := tail.success + 1,
        failed := tail.failed, attempted := op :: tail.attempted }
    | Except.error _ =>
      let op2 := bumpRetries op
      if op2.retries < 3 then
        { remaining := op2 :: tail.remaining, success := tail.success,
          failed := tail.failed, attempted := op :: tail.attempted }
      else
        { remaining := tail.remaining, success := tail.success,
          failed := tail.failed + 1, attempted := op :: tail.attempted }

/-- `processQueue` (source lines 109 to 144): when `syncInProgress` is set or
the monitor reports offline, returns zero tallies at once, touching nothing.
Otherwise it reads the queue, runs the loop, and writes the remaining list
back wholesale.  The flag is reset in a finally block, so it is `false` at
return even when the final write rejects, and in that case the rejection
propagates. -/
def processQueue (st : QState) (env : StorageEnv) (fetch : Request → FetchResult) :
    QState × StorageEnv × Except String (Nat × Nat) :=
  if st.syncInProgress || !st.isOnline then
    (st, env, Except.ok (0, 0))
  else
    let acc := processPass fetch (getQueue env)
    match setItem env acc.remaining with
    | Except.ok env2 =>
      ({ st with syncInProgress := false }, env2, Except.ok (acc.success, acc.failed))
    | Except.error e =>
      ({ st with syncInProgress := false }, env, Except.error e)

/-- `processQueue` with an `enqueue` write landing at a suspension point
between the snapshot read and the final wholesale write: the concurrent writer
appends `raceOp` to the stored entry, after which the pass commits the
remaining list it computed from its own snapshot. -/
def processQueueInterleaved (st : QState) (env : StorageEnv)
    (fetch : Request → FetchResult) (raceOp : QueuedOperation) :
    QState × StorageEnv × Except String (Nat × Nat) :=
  if st.syncInProgress || !st.isOnline then
    (st, env, Except.ok (0, 0))
  else
    let acc := processPass fetch (getQueue env)
    let envMid :=
      match setItem env (getQueue env ++ [raceOp]) with
      | Except.ok e => e
      | Except.error _ => env
    match setItem envMid acc.remaining with
    | Except.ok env2 =>
      ({ st with syncInProgress := false }, env2, Except.ok (acc.success, acc.failed))
    | Except.error e =>
      ({ st with syncInProgress := false }, envMid, Except.error e)

/-- The NetInfo listener installed by `initNetworkListener` (source lines 27 to
40): records whether the previous state was offline, adopts the reported state
(a null `isConnected` counts as connected), and initiates `processQueue` once
exactly when an offline state turns online.  The returned number counts the
`processQueue` invocations the handler initiates. -/
def handleNetInfoEvent (st : QState) (isConnected : Option Bool) : QState × Nat :=
  let wasOffline := !st.isOnline
  let newOnline := isConnected.getD true
  ({ st with isOnline := newOnline }, if wasOffline && newOnline then 1 else 0)

/-- Concrete payload for witnesses. -/
def payload0 : Payload := { id := "p1", quantity := 2, json := "x" }

/-- Concrete operation for witnesses: a fresh create_product record. -/
def op0 : QueuedOperation :=
  { id := "1_r", type := OpType.create_product, payload := payload0,
    timestamp := 1, retries := 0 }

/-- Concrete create_order operation for witnesses. -/
def opOrder : QueuedOperation :=
  { id := "2_s", type := OpType.create_order, payload := payload0,
    timestamp := 2, retries := 0 }

/-- A backend that is unreachable: every fetch promise rejects. -/
def fetchRej : Request → FetchResult := fun _ => FetchResult.rejected

/-- A healthy backend: every fetch resolves with status 200. -/
def fetchOk : Request → FetchResult := fun _ => FetchResult.resolved 200

/-- A failing backend that still answers: every fetch resolves with status 500. -/
def fetch500 : Request → FetchResult := fun _ => FetchResult.resolved 500

/-- Fault-free storage holding exactly the queue q. -/
def envWith (q : List QueuedOperation) : StorageEnv :=
  { stored := some q, readFails := false, writeFails := false }

/-- Storage whose writes reject. -/
def envWriteFail : StorageEnv :=
  { stored := some [], readFails := false, writeFails := true }

/-- Idle online instance state. -/
def stIdle : QState := { isOnline := true, syncInProgress := false }

/-- Idle offline instance state. -/
def stOff : QState := { isOnline := false, syncInProgress := false }

/-- A concrete two-call enqueue sequence for witnesses. -/
def reqs0 : List (Nat × String × OpType × Payload) :=
  [(1, "a", OpType.create_product, payload0), (2, "b", OpType.log_expense, payload0)]

theorem executeOperation_bump (fetch : Request → FetchResult) (op : QueuedOperation) :
    executeOperation fetch (bumpRetries op) = executeOperation fetch op := by
  cases op with
  | mk i t p ts r => cases t <;> rfl

theorem execOk_bump (fetch : Request → FetchResult) (op : QueuedOperation) :
    execOk fetch (bumpRetries op) = execOk fetch op := by
  simp [execOk, executeOperation_bump]

theorem execOk_true_iff (fetch : Request → FetchResult) (op : QueuedOperation) :
    execOk fetch op = true ↔ executeOperation fetch op = Except.ok () := by
  unfold execOk
  cases h : executeOperation fetch op with
  | ok v => simp
  | error e => simp

theorem processPass_attempted (fetch : Request → FetchResult) :
    ∀ q : List QueuedOperation, (processPass fetch q).attempted = q := by
  intro q
  induction q with
  | nil => rfl
  | cons op rest ih =>
    show (processPass fetch (op :: rest)).attempted = op :: rest
    unfold processPass
    cases h : executeOperation fetch op with
    | ok v => simpa using ih
    | error e =>
      by_cases hb : (bumpRetries op).retries < 3 <;> simp [hb] <;> exact ih

theorem processPass_success_count (fetch : Request → FetchResult) :
    ∀ q : List QueuedOperation,
      (processPass fetch q).success = (q.filter (fun o => execOk fetch o)).length := by
  intro q
  induction q with
  | nil => rfl
  | cons op rest ih =>
    unfold processPass
    cases h : executeOperation fetch op with
    | ok v =>
      have hok : execOk fetch op = true := by simp [execOk, h]
      simp [List.filter, hok, ih]
    | error e =>
      have hko : execOk fetch op = false := by simp [execOk, h]
      by_cases hb : (bumpRetries op).retries < 3 <;> simp [hb, List.filter, hko, ih]

theorem processPass_remaining_fails (fetch : Request → FetchResult) :
    ∀ q : List QueuedOperation, ∀ o ∈ (processPass fetch q).remaining,
      execOk fetch o = false := by
  intro q
  induction q with
  | nil => intro o ho; simp [processPass] at ho
  | cons op rest ih =>
    intro o ho
    unfold processPass at ho
    cases h : executeOperation fetch op with
    | ok v =>
      rw [h] at ho
      exact ih o ho
    | error e =>
      rw [h] at ho
      by_cases hb : (bumpRetries op).retries < 3
      · simp only [if_pos hb] at ho
        rcases List.mem_cons.mp ho with rfl | hmem
        · rw [execOk_bump]
          simp [execOk, h]
        · exact ih o hmem
      · simp only [if_neg hb] at ho
        exact ih o ho

theorem processPass_remaining_ids (fetch : Request → FetchResult) :
    ∀ q : List QueuedOperation, ∀ o ∈ (processPass fetch q).remaining,
      o.id ∈ q.map (fun x => x.id) := by
  intro q
  induction q with
  | nil => intro o ho; simp [processPass] at ho
  | cons op rest ih =>
    intro o ho
    unfold processPass at ho
    cases h : executeOperation fetch op with
    | ok v =>
      rw [h] at ho
      exact List.mem_cons_of_mem _ (ih o ho)
    | error e =>
      rw [h] at ho
      by_cases hb : (bumpRetries op).retries < 3
      · simp only [if_pos hb] at ho
        rcases List.mem_cons.mp ho with rfl | hmem
        · exact List.mem_cons_self _ _
        · exact List.mem_cons_of_mem _ (ih o hmem)
      · simp only [if_neg hb] at ho
        exact List.mem_cons_of_mem _ (ih o ho)

theorem processPass_retained (fetch : Request → FetchResult) :
    ∀ q : List QueuedOperation, ∀ op ∈ q,
      execOk fetch op = false → (bumpRetries op).retries < 3 →
      bumpRetries op ∈ (processPass fetch q).remaining := by
  intro q
  induction q with
  | nil => intro op hmem; simp at hmem
  | cons hd rest ih =>
    intro op hmem hko hb
    unfold processPass
    rcases List.mem_cons.mp hmem with rfl | hmem
    · cases h : executeOperation fetch op with
      | ok v => simp [execOk, h] at hko
      | error e => simp [if_pos hb]
    · cases h : executeOperation fetch hd with
      | ok v => simpa using ih op hmem hko hb
      | error e =>
        by_cases hb2 : (bumpRetries hd).retries < 3
        · simp only [if_pos hb2]
          exact List.mem_cons_of_mem _ (ih op hmem hko hb)
        · simp only [if_neg hb2]
          exact ih op hmem hko hb

theorem processPass_failed_pos (fetch : Request → FetchResult) :
    ∀ q : List QueuedOperation, ∀ op ∈ q,
      execOk fetch op = false → ¬ (bumpRetries op).retries < 3 →
      1 ≤ (processPass fetch q).failed := by
  intro q
  induction q with
  | nil => intro op hmem; simp at hmem
  | cons hd rest ih =>
    intro op hmem hko hb
    unfold processPass
    rcases List.mem_cons.mp hmem with rfl | hmem
    · cases h : executeOperation fetch op with
      | ok v => simp [execOk, h] at hko
      | error e => simp [if_neg hb]
    · cases h : executeOperation fetch hd with
      | ok v => simpa using ih op hmem hko hb
      | error e =>
        by_cases hb2 : (bumpRetries hd).retries < 3
        · simp only [if_pos hb2]
          exact ih op hmem hko hb
        · simp only [if_neg hb2]
          exact Nat.le_succ_of_le (ih op hmem hko hb)

theorem getQueue_eq (env : StorageEnv) (q : List QueuedOperation)
    (hr : env.readFails = false) (hs : env.stored = some q) :
    getQueue env = q := by
  simp [getQueue, getItem, hr, hs]

theorem processQueue_run (st : QState) (env : StorageEnv) (fetch : Request → FetchResult)
    (hsy : st.syncInProgress = false) (hon : st.isOnline = true)
    (hw : env.writeFails = false) :
    processQueue st env fetch =
      (st, { env with stored := some (processPass fetch (getQueue env)).remaining },
       Except.ok ((processPass fetch (getQueue env)).success,
                  (processPass fetch (getQueue env)).failed)) := by
  cases st with
  | mk o s =>
    simp only at hsy hon
    subst hsy
    subst hon
    simp [processQueue, setItem, hw]


theorem executeOperation_req (fetch : Request → FetchResult) (op : QueuedOperation)
    (r : Request) (hreq : requestOf op = some r) :
    executeOperation fetch op =
      match fetch r with
      | FetchResult.resolved _ => Except.ok ()
      | FetchResult.rejected => Except.error "network request failed" := by
  obtain ⟨i, t, p, ts, rt⟩ := op
  cases t with
  | create_product => injection hreq with h; rw [← h]; rfl
  | update_product => injection hreq with h; rw [← h]; rfl
  | restock => injection hreq with h; rw [← h]; rfl
  | log_expense => injection hreq with h; rw [← h]; rfl
  | create_order => exact Option.noConfusion hreq

/-- Claim C1: a processQueue call made while a pass is already in flight
(syncInProgress holds at a suspension point) or while the monitor reports
offline returns zero tallies at once; the returned state and storage are the
inputs untouched, for every storage content, so nothing is read or written and
the persisted queue is unchanged. -/
theorem c1_mutual_exclusion (st : QState) (env : StorageEnv)
    (fetch : Request → FetchResult)
    (h : st.syncInProgress = true ∨ st.isOnline = false) :
    processQueue st env fetch = (st, env, Except.ok (0, 0)) := by
  rcases h with h | h <;> simp [processQueue, h]

/-- Witness for C1 at a concrete in-flight state. -/
theorem c1_witness :
    ((⟨true, true⟩ : QState).syncInProgress = true ∨ (⟨true, true⟩ : QState).isOnline = false) ∧
    processQueue ⟨true, true⟩ (envWith [op0]) fetchOk
      = (⟨true, true⟩, envWith [op0], Except.ok (0, 0)) :=
  ⟨Or.inl rfl, c1_mutual_exclusion ⟨true, true⟩ (envWith [op0]) fetchOk (Or.inl rfl)⟩

/-- Counterexample to claim C2 as stated: the backend answers a create_product
replay with HTTP 500 (the fetch promise resolves with a non-2xx status); the
code still leaves executeOperation normally, so the pass counts the operation
as a success, removes it, and does not touch its retries field. -/
theorem c2_counterexample :
    executeOperation fetch500 op0 = Except.ok () ∧
    processPass fetch500 [op0] =
      { remaining := [], success := 1, failed := 0, attempted := [op0] } :=
  ⟨rfl, rfl⟩

/-- Claim C2 amended: an execution attempt counts as successful exactly when
the fetch promise resolves, whatever the HTTP status; only a rejected promise
(thrown network error or timeout) is a failure, and such a failure increments
the retries field of the operation retained by the pass. -/
theorem c2_success_iff_resolved (fetch : Request → FetchResult)
    (op : QueuedOperation) (r : Request) (hreq : requestOf op = some r) :
    (∀ s : Nat, fetch r = FetchResult.resolved s →
      executeOperation fetch op = Except.ok ()) ∧
    (fetch r = FetchResult.rejected →
      executeOperation fetch op = Except.error "network request failed") ∧
    (fetch r = FetchResult.rejected → ∀ q : List QueuedOperation, op ∈ q →
      (bumpRetries op).retries < 3 →
      bumpRetries op ∈ (processPass fetch q).remaining) := by
  have he := executeOperation_req fetch op r hreq
  refine ⟨?_, ?_, ?_⟩
  · intro s hs; rw [he, hs]
  · intro hrej; rw [he, hrej]
  · intro hrej q hq hb
    refine processPass_retained fetch q op hq ?_ hb
    simp [execOk, he, hrej]

/-- Witness for the amended C2 at a concrete operation and an unreachable
backend. -/
theorem c2_witness :
    requestOf op0 = some { url := API_BASE ++ "/products", method := "POST",
                           body := some payload0.json } ∧
    (fetchRej { url := API_BASE ++ "/products", method := "POST",
                body := some payload0.json } = FetchResult.rejected →
      executeOperation fetchRej op0 = Except.error "network request failed") :=
  ⟨rfl, (c2_success_iff_resolved fetchRej op0
      { url := API_BASE ++ "/products", method := "POST",
        body := some payload0.json } rfl).2.1⟩

/-- Claim C3: an operation whose execution fails on every attempt is attempted
once per pass; the first two failing passes retain it with retries 1 and then
2, the third failing attempt raises retries to 3, drops it, and counts it once
in the failed tally of that pass, and a fourth pass finds an empty queue and
attempts nothing. -/
theorem c3_bounded_retry (st : QState) (env : StorageEnv) (op : QueuedOperation)
    (f1 f2 f3 f4 : Request → FetchResult) (e1 e2 e3 : String)
    (hsy : st.syncInProgress = false) (hon : st.isOnline = true)
    (hr : env.readFails = false) (hw : env.writeFails = false)
    (hst : env.stored = some [op]) (hret : op.retries = 0)
    (hf1 : executeOperation f1 op = Except.error e1)
    (hf2 : executeOperation f2 op = Except.error e2)
    (hf3 : executeOperation f3 op = Except.error e3) :
    processQueue st env f1
      = (st, { env with stored := some [bumpRetries op] }, Except.ok (0, 0)) ∧
    processQueue st { env with stored := some [bumpRetries op] } f2
      = (st, { env with stored := some [bumpRetries (bumpRetries op)] },
         Except.ok (0, 0)) ∧
    processQueue st { env with stored := some [bumpRetries (bumpRetries op)] } f3
      = (st, { env with stored := some [] }, Except.ok (0, 1)) ∧
    processQueue st { env with stored := some [] } f4
      = (st, { env with stored := some [] }, Except.ok (0, 0)) := by
  have hb1 : (bumpRetries op).retries < 3 := by simp [bumpRetries, hret]
  have hb2 : (bumpRetries (bumpRetries op)).retries < 3 := by simp [bumpRetries, hret]
  have hb3 : ¬ (bumpRetries (bumpRetries (bumpRetries op))).retries < 3 := by
    simp [bumpRetries, hret]
  have hq1 : getQueue env = [op] := getQueue_eq env [op] hr hst
  have hf2b : executeOperation f2 (bumpRetries op) = Except.error e2 := by
    rw [executeOperation_bump, hf2]
  have hf3b : executeOperation f3 (bumpRetries (bumpRetries op)) = Except.error e3 := by
    rw [executeOperation_bump, executeOperation_bump, hf3]
  have p1 : processPass f1 [op]
      = { remaining := [bumpRetries op], success := 0, failed := 0,
          attempted := [op] } := by
    simp [processPass, hf1, hb1]
  have p2 : processPass f2 [bumpRetries op]
      = { remaining := [bumpRetries (bumpRetries op)], success := 0, failed := 0,
          attempted := [bumpRetries op] } := by
    simp [processPass, hf2b, hb2]
  have p3 : processPass f3 [bumpRetries (bumpRetries op)]
      = { remaining := [], success := 0, failed := 1,
          attempted := [bumpRetries (bumpRetries op)] } := by
    simp [processPass, hf3b, hb3]
  refine ⟨?_, ?_, ?_, ?_⟩
  · rw [processQueue_run st env f1 hsy hon hw, hq1, p1]
  · rw [processQueue_run st { env with stored := some [bumpRetries op] } f2 hsy hon hw,
        getQueue_eq { env with stored := some [bumpRetries op] }
          [bumpRetries op] hr rfl, p2]
  · rw [processQueue_run st
          { env with stored := some [bumpRetries (bumpRetries op)] } f3 hsy hon hw,
        getQueue_eq { env with stored := some [bumpRetries (bumpRetries op)] }
          [bumpRetries (bumpRetries op)] hr rfl, p3]
  · rw [processQueue_run st { env with stored := some [] } f4 hsy hon hw,
        getQueue_eq { env with stored := some [] } [] hr rfl]
    rfl

/-- Witness for C3: a concrete fresh operation against an unreachable backend,
showing the first pass retains it with retries 1 and the third pass drops it
with a failed tally of 1. -/
theorem c3_witness :
    executeOperation fetchRej op0 = Except.error "network request failed" ∧
    processQueue stIdle (envWith [op0]) fetchRej
      = (stIdle, { envWith [op0] with stored := some [bumpRetries op0] },
         Except.ok (0, 0)) ∧
    processQueue stIdle
        { envWith [op0] with stored := some [bumpRetries (bumpRetries op0)] } fetchRej
      = (stIdle, { envWith [op0] with stored := some [] }, Except.ok (0, 1)) :=
  ⟨rfl,
   (c3_bounded_retry stIdle (envWith [op0]) op0 fetchRej fetchRej fetchRej fetchRej
      "network request failed" "network request failed" "network request failed"
      rfl rfl rfl rfl rfl rfl rfl rfl rfl).1,
   (c3_bounded_retry stIdle (envWith [op0]) op0 fetchRej fetchRej fetchRej fetchRej
      "network request failed" "network request failed" "network request failed"
      rfl rfl rfl rfl rfl rfl rfl rfl rfl).2.2.1⟩

/-- Counterexample to claim C4 as stated: with a rejecting storage write, the
enqueue call does not return the new id; the rejection of the awaited setItem
call propagates to the caller, since the source wraps it in no try/catch. -/
theorem c4_counterexample :
    enqueue 0 "r" OpType.log_expense payload0 envWriteFail
      = Except.error "storage write error" := rfl

/-- Claim C4 amended: enqueue returns the id of the freshly built operation
exactly when the storage write succeeds, having appended the operation to the
queue read from storage; when the write fails the error propagates to the
caller instead of being swallowed; a storage read failure, by contrast, is
swallowed inside getQueue, which returns the empty queue. -/
theorem c4_enqueue_write_outcome (now : Nat) (rand : String) (t : OpType)
    (p : Payload) (env : StorageEnv) :
    (env.writeFails = false →
      enqueue now rand t p env =
        Except.ok ({ env with stored := some (getQueue env ++ [mkOperation now rand t p]) },
                   (mkOperation now rand t p).id)) ∧
    (env.writeFails = true →
      enqueue now rand t p env = Except.error "storage write error") ∧
    (env.readFails = true → getQueue env = []) := by
  refine ⟨?_, ?_, ?_⟩
  · intro hw; simp [enqueue, setItem, hw]
  · intro hw; simp [enqueue, setItem, hw]
  · intro hr; simp [getQueue, getItem, hr]

/-- Witness for the amended C4 at a concrete call on healthy storage. -/
theorem c4_witness :
    (envWith []).writeFails = false ∧
    enqueue 5 "ab" OpType.restock payload0 (envWith [])
      = Except.ok ({ envWith [] with stored := some (getQueue (envWith []) ++ [mkOperation 5 "ab" OpType.restock payload0]) },
                   (mkOperation 5 "ab" OpType.restock payload0).id) :=
  ⟨rfl, (c4_enqueue_write_outcome 5 "ab" OpType.restock payload0 (envWith [])).1 rfl⟩

/-- Claim C5: a sequence of enqueue calls on fault-free storage, with no
intervening replay pass, leaves the queue read by getQueue equal to the prior
content followed by the new operations in call order (oldest first), returns
the new ids in that same order, and a replay pass over that queue attempts the
operations in exactly that order. -/
theorem c5_order_preservation (fetch : Request → FetchResult)
    (reqs : List (Nat × String × OpType × Payload)) :
    ∀ (env : StorageEnv) (q0 : List QueuedOperation),
      env.readFails = false → env.writeFails = false → env.stored = some q0 →
      ∃ envF ids, enqueueAll reqs env = Except.ok (envF, ids) ∧
        getQueue envF = q0 ++ reqs.map mkReqOp ∧
        ids = reqs.map (fun r => (mkReqOp r).id) ∧
        (processPass fetch (getQueue envF)).attempted = q0 ++ reqs.map mkReqOp := by
  induction reqs with
  | nil =>
    intro env q0 hr hw hs
    refine ⟨env, [], rfl, ?_, rfl, ?_⟩
    · simpa using getQueue_eq env q0 hr hs
    · rw [processPass_attempted]
      simpa using getQueue_eq env q0 hr hs
  | cons hd rest ih =>
    intro env q0 hr hw hs
    obtain ⟨now, rand, t, p⟩ := hd
    have hq : getQueue env = q0 := getQueue_eq env q0 hr hs
    have henq : enqueue now rand t p env
        = Except.ok ({ env with stored := some (q0 ++ [mkOperation now rand t p]) },
                     (mkOperation now rand t p).id) := by
      simp [enqueue, setItem, hw, hq]
    obtain ⟨envF, ids, h1, h2, h3, h4⟩ :=
      ih { env with stored := some (q0 ++ [mkOperation now rand t p]) }
         (q0 ++ [mkOperation now rand t p]) hr hw rfl
    refine ⟨envF, (mkOperation now rand t p).id :: ids, ?_, ?_, ?_, ?_⟩
    · simp [enqueueAll, henq, h1]
    · rw [h2]; simp [mkReqOp]
    · simp [h3, mkReqOp]
    · rw [h4]; simp [mkReqOp]

/-- Witness for C5: two concrete enqueue calls starting from an empty queue. -/
theorem c5_witness :
    (envWith []).stored = some [] ∧
    (∃ envF ids, enqueueAll reqs0 (envWith []) = Except.ok (envF, ids) ∧
      getQueue envF = [] ++ reqs0.map mkReqOp ∧
      ids = reqs0.map (fun r => (mkReqOp r).id) ∧
      (processPass fetchOk (getQueue envF)).attempted = [] ++ reqs0.map mkReqOp) :=
  ⟨rfl, c5_order_preservation fetchOk reqs0 (envWith []) [] rfl rfl rfl⟩

/-- Claim C6: an operation in the snapshot whose execution succeeds is absent
from the remaining list the pass writes back (that list is exactly what ends
up in storage), the pass resolves with the aggregate tallies, and the success
tally counts each successfully executed queue entry exactly once; nothing in
this depends on the retries value the operation carried before the success. -/
theorem c6_success_removes (fetch : Request → FetchResult) (st : QState)
    (env : StorageEnv) (op : QueuedOperation)
    (hsy : st.syncInProgress = false) (hon : st.isOnline = true)
    (hw : env.writeFails = false)
    (hmem : op ∈ getQueue env)
    (hok : executeOperation fetch op = Except.ok ()) :
    ((processQueue st env fetch).2.1).stored
        = some (processPass fetch (getQueue env)).remaining ∧
    op ∉ (processPass fetch (getQueue env)).remaining ∧
    (processQueue st env fetch).2.2 =
      Except.ok ((processPass fetch (getQueue env)).success,
                 (processPass fetch (getQueue env)).failed) ∧
    (processPass fetch (getQueue env)).success =
      ((getQueue env).filter (fun o => execOk fetch o)).length ∧
    op ∈ (getQueue env).filter (fun o => execOk fetch o) := by
  refine ⟨?_, ?_, ?_, processPass_success_count fetch _, ?_⟩
  · rw [processQueue_run st env fetch hsy hon hw]
  · intro hin
    have h2 := processPass_remaining_fails fetch (getQueue env) op hin
    simp [execOk, hok] at h2
  · rw [processQueue_run st env fetch hsy hon hw]
  · exact List.mem_filter.mpr ⟨hmem, by simp [execOk, hok]⟩

/-- Witness for C6: a concrete operation against a healthy backend. -/
theorem c6_witness :
    op0 ∈ getQueue (envWith [op0]) ∧
    op0 ∉ (processPass fetchOk (getQueue (envWith [op0]))).remaining :=
  ⟨by decide,
   (c6_success_removes fetchOk stIdle (envWith [op0]) op0 rfl rfl rfl
      (by decide) rfl).2.1⟩

/-- Claim C7: within one pass every snapshot operation is attempted, in order,
whatever mix of failures the backend produces (no fail-fast), and the pass
resolves with only the aggregate tallies; with a healthy final write no
individual execution failure surfaces to the caller of processQueue. -/
theorem c7_no_fail_fast (fetch : Request → FetchResult) (st : QState)
    (env : StorageEnv)
    (hsy : st.syncInProgress = false) (hon : st.isOnline = true)
    (hw : env.writeFails = false) :
    (processPass fetch (getQueue env)).attempted = getQueue env ∧
    (processQueue st env fetch).2.2 =
      Except.ok ((processPass fetch (getQueue env)).success,
                 (processPass fetch (getQueue env)).failed) := by
  refine ⟨processPass_attempted fetch _, ?_⟩
  rw [processQueue_run st env fetch hsy hon hw]

/-- Witness for C7: a two-operation queue against an unreachable backend. -/
theorem c7_witness :
    stIdle.syncInProgress = false ∧
    ((processPass fetchRej (getQueue (envWith [op0, opOrder]))).attempted
        = getQueue (envWith [op0, opOrder]) ∧
     (processQueue stIdle (envWith [op0, opOrder]) fetchRej).2.2 =
       Except.ok ((processPass fetchRej (getQueue (envWith [op0, opOrder]))).success,
                  (processPass fetchRej (getQueue (envWith [op0, opOrder]))).failed)) :=
  ⟨rfl, c7_no_fail_fast fetchRej stIdle (envWith [op0, opOrder]) rfl rfl rfl⟩

/-- Claim C8: an operation whose kind reaches the default branch of the replay
dispatcher, which in the closed enumeration is exactly the declared kind
create_order, throws from executeOperation; in a pass this is caught as an
ordinary per-operation failure: every queue entry is still attempted, the
operation is retained with its retries incremented while under budget, and
once over budget it adds to the failed tally instead of crashing the pass. -/
theorem c8_unknown_kind (fetch : Request → FetchResult)
    (q : List QueuedOperation) (op : QueuedOperation)
    (hk : op.type = OpType.create_order) (hmem : op ∈ q) :
    executeOperation fetch op = Except.error "Unknown operation type: create_order" ∧
    (processPass fetch q).attempted = q ∧
    ((bumpRetries op).retries < 3 → bumpRetries op ∈ (processPass fetch q).remaining) ∧
    (¬ (bumpRetries op).retries < 3 → 1 ≤ (processPass fetch q).failed) := by
  have he : executeOperation fetch op
      = Except.error "Unknown operation type: create_order" := by
    obtain ⟨i, t, p, ts, rt⟩ := op
    simp only at hk
    subst hk
    rfl
  have hko : execOk fetch op = false := by simp [execOk, he]
  exact ⟨he, processPass_attempted fetch q,
         fun hb => processPass_retained fetch q op hmem hko hb,
         fun hb => processPass_failed_pos fetch q op hmem hko hb⟩

/-- Witness for C8: a concrete create_order operation queued ahead of a
healthy operation; the pass retains it with retries bumped to 1. -/
theorem c8_witness :
    opOrder.type = OpType.create_order ∧ opOrder ∈ [opOrder, op0] ∧
    bumpRetries opOrder ∈ (processPass fetchOk [opOrder, op0]).remaining :=
  ⟨rfl, by decide,
   (c8_unknown_kind fetchOk [opOrder, op0] opOrder rfl (by decide)).2.2.1 (by decide)⟩

/-- Claim C9: the NetInfo handler initiates exactly one processQueue
invocation on an offline to online transition, none on a transition to
offline, and none on a spurious notification repeating the online state; it
always adopts the reported connectivity. -/
theorem c9_reconnect_trigger (st : QState) (connected : Option Bool) :
    (st.isOnline = false → connected = some true →
      (handleNetInfoEvent st connected).2 = 1) ∧
    (connected = some false → (handleNetInfoEvent st connected).2 = 0) ∧
    (st.isOnline = true → connected = some true →
      (handleNetInfoEvent st connected).2 = 0) ∧
    (handleNetInfoEvent st connected).1.isOnline = connected.getD true := by
  refine ⟨?_, ?_, ?_, rfl⟩
  · intro h1 h2; subst h2; simp [handleNetInfoEvent, h1]
  · intro h; subst h; simp [handleNetInfoEvent]
  · intro h1 h2; subst h2; simp [handleNetInfoEvent, h1]

/-- Witness for C9: a concrete offline state receiving an online event. -/
theorem c9_witness :
    stOff.isOnline = false ∧ (handleNetInfoEvent stOff (some true)).2 = 1 :=
  ⟨rfl, (c9_reconnect_trigger stOff (some true)).1 rfl rfl⟩

/-- Claim C10: when an enqueue write lands between the snapshot read of a pass
and its final wholesale write, the storage content after the pass is exactly
the remaining list computed from the snapshot alone, and in particular the
freshly enqueued operation, whose id is not among the snapshot ids, is absent
from the persisted queue. -/
theorem c10_frame (fetch : Request → FetchResult) (st : QState)
    (env : StorageEnv) (raceOp : QueuedOperation)
    (hsy : st.syncInProgress = false) (hon : st.isOnline = true)
    (hw : env.writeFails = false)
    (hid : raceOp.id ∉ (getQueue env).map (fun x => x.id)) :
    ((processQueueInterleaved st env fetch raceOp).2.1).stored
        = some (processPass fetch (getQueue env)).remaining ∧
    ∀ o ∈ (processPass fetch (getQueue env)).remaining, o.id ≠ raceOp.id := by
  constructor
  · simp [processQueueInterleaved, hsy, hon, setItem, hw]
  · intro o ho heq
    apply hid
    rw [← heq]
    exact processPass_remaining_ids fetch (getQueue env) o ho

/-- Witness for C10: a concrete pass whose snapshot holds one operation while
a distinct operation is enqueued mid-pass. -/
theorem c10_witness :
    opOrder.id ∉ (getQueue (envWith [op0])).map (fun x => x.id) ∧
    ((processQueueInterleaved stIdle (envWith [op0]) fetchOk opOrder).2.1).stored
        = some (processPass fetchOk (getQueue (envWith [op0]))).remaining :=
  ⟨by decide,
   (c10_frame fetchOk stIdle (envWith [op0]) opOrder rfl rfl rfl (by decide)).1⟩
